import Mathlib

/-!
Shallow embedding of the WordClock-MAX7219 sketch (WordClock_MAX7219.ino).
The display is modelled as a list of 8 row bytes; `setRow` overwrites one row,
mirroring the MD_MAX72XX `setRow` call.  All `uint8_t` stores carry an explicit
`% 256`.
-/

namespace WordClock

/-- Number of rows of the font glyphs and of the display (FONT_ROWS in the source). -/
def FONT_ROWS : Nat := 8

/-- Font table for digits 0-9 followed by the glyphs for plus and minus
(fontMap in the source), stored as display rows. -/
def fontMap : List (List Nat) :=
[ [0x7, 0x5, 0x5, 0x5, 0x5, 0x5, 0x7, 0x0],
  [0x1, 0x1, 0x1, 0x1, 0x1, 0x1, 0x1, 0x0],
  [0x7, 0x1, 0x1, 0x7, 0x4, 0x4, 0x7, 0x0],
  [0x7, 0x1, 0x1, 0x7, 0x1, 0x1, 0x7, 0x0],
  [0x4, 0x4, 0x5, 0x5, 0x7, 0x1, 0x1, 0x0],
  [0x7, 0x4, 0x4, 0x7, 0x1, 0x1, 0x7, 0x0],
  [0x7, 0x4, 0x4, 0x7, 0x5, 0x5, 0x7, 0x0],
  [0x7, 0x1, 0x1, 0x1, 0x1, 0x1, 0x1, 0x0],
  [0x7, 0x5, 0x5, 0x7, 0x5, 0x5, 0x7, 0x0],
  [0x7, 0x5, 0x5, 0x7, 0x1, 0x1, 0x7, 0x0],
  [0x0, 0x0, 0x2, 0x7, 0x2, 0x0, 0x0, 0x0],
  [0x0, 0x0, 0x0, 0x7, 0x0, 0x0, 0x0, 0x0] ]

/-- Row of a font glyph: fontMap[g][i]. -/
def fontRow (g i : Nat) : Nat := (fontMap.getD g []).getD i 0

/-- A word on the clock face: a row number and the bit pattern to light in that
row (clockWord_t in the source). -/
structure clockWord where
  row : Nat
  data : Nat
deriving DecidableEq

def M_05 : clockWord := ⟨2, 0b11110000⟩
def M_10 : clockWord := ⟨0, 0b01011000⟩
def M_15 : clockWord := ⟨1, 0b11111110⟩
def M_20 : clockWord := ⟨0, 0b01111110⟩
def M_30 : clockWord := ⟨2, 0b00001111⟩

def TO : clockWord := ⟨3, 0b00001100⟩
def PAST : clockWord := ⟨3, 0b01111000⟩

def H_01 : List clockWord := [⟨7, 0b01001001⟩]
def H_02 : List clockWord := [⟨6, 0b11000000⟩, ⟨7, 0b01000000⟩]
def H_03 : List clockWord := [⟨5, 0b00011111⟩]
def H_04 : List clockWord := [⟨7, 0b11110000⟩]
def H_05 : List clockWord := [⟨4, 0b11110000⟩]
def H_06 : List clockWord := [⟨5, 0b11100000⟩]
def H_07 : List clockWord := [⟨5, 0b10000000⟩, ⟨6, 0b00001111⟩]
def H_08 : List clockWord := [⟨4, 0b00011111⟩]
def H_09 : List clockWord := [⟨7, 0b00001111⟩]
def H_10 : List clockWord := [⟨4, 0b00000001⟩, ⟨5, 0b00000001⟩, ⟨6, 0b00000001⟩]
def H_11 : List clockWord := [⟨6, 0b00111111⟩]
def H_12 : List clockWord := [⟨6, 0b11110110⟩]

/-- Display frame: 8 row bytes, all off (the state after clock.clear()). -/
def emptyFrame : List Nat := [0, 0, 0, 0, 0, 0, 0, 0]

/-- MD_MAX72XX setRow: overwrite row r of the frame with data d. -/
def setRow (f : List Nat) (r d : Nat) : List Nat := f.set r d

/-- Light one clockWord on the frame (a clock.setRow call in the source). -/
def setWord (f : List Nat) (w : clockWord) : List Nat := setRow f w.row w.data

/-- The summer-time offset applied to the RTC hour (currentHour in the source):
add 1 when the summer flag is set, wrapping 13 to 1.  The hour is a uint8_t. -/
def currentHour (summer : Bool) (h : Nat) : Nat :=
  let h := (h + (if summer then 1 else 0)) % 256
  if h > 12 then 1 else h

/-- Rows of the two-digit frame built by mapNumber in the source: the tens
glyph is shifted into the high nibble and the units glyph is ORed into the
low nibble of every row. -/
def mapNumber (num : Nat) : List Nat :=
  let hi := num / 10
  let lo := num % 10
  (List.range FONT_ROWS).map (fun i => ((fontRow hi i <<< 4) % 256) ||| fontRow lo i)

/-- Minute words chosen by the switch on m in updateClock, with
PRE_DELTA = POST_DELTA = 2.  Each case of the source switch appears as one
branch with its literal range bounds; the ranges do not overlap, so the
if-chain matches the switch. -/
def minuteSpans (m : Nat) : List clockWord :=
  if m ≤ 2 ∨ (58 ≤ m ∧ m ≤ 59) then []
  else if (3 ≤ m ∧ m ≤ 7) ∨ (53 ≤ m ∧ m ≤ 57) then [M_05]
  else if (8 ≤ m ∧ m ≤ 12) ∨ (48 ≤ m ∧ m ≤ 52) then [M_10]
  else if (13 ≤ m ∧ m ≤ 17) ∨ (43 ≤ m ∧ m ≤ 47) then [M_15]
  else if (18 ≤ m ∧ m ≤ 22) ∨ (38 ≤ m ∧ m ≤ 42) then [M_20]
  else if (23 ≤ m ∧ m ≤ 27) ∨ (33 ≤ m ∧ m ≤ 37) then [M_05, M_20]
  else if 28 ≤ m ∧ m ≤ 32 then [M_30]
  else []

/-- PAST or TO word chosen in updateClock: outside the top-of-hour interval,
PAST in the first half hour (m ≤ 32), TO after it. -/
def pastToSpans (m : Nat) : List clockWord :=
  if 0 + 2 < m ∧ m < 60 - 2 then
    (if m ≤ 30 + 2 then [PAST] else [TO])
  else []

/-- Hour advance after the half hour in updateClock: for m > 32 the hour
steps forward, 12 wrapping to 1. -/
def hourAdjust (m h : Nat) : Nat :=
  if 30 + 2 < m then (if h < 12 then h + 1 else 1) else h

/-- Hour-name lookup (the switch on currentHour(h) in updateClock).  Values
outside 1..12 fall through the switch leaving the word pointer uninitialised,
modelled as none. -/
def hourGlyph : Nat → Option (List clockWord)
  | 1 => some H_01
  | 2 => some H_02
  | 3 => some H_03
  | 4 => some H_04
  | 5 => some H_05
  | 6 => some H_06
  | 7 => some H_07
  | 8 => some H_08
  | 9 => some H_09
  | 10 => some H_10
  | 11 => some H_11
  | 12 => some H_12
  | _ => none

/-- The hour value reaching the hour-name switch in updateClock. -/
def hourSwitchValue (summer : Bool) (h m : Nat) : Nat :=
  currentHour summer (hourAdjust m h)

/-- The frame built by updateClock(h, m): clear the display, light the minute
words, the PAST or TO word, then the hour words, each by a setRow call in the
order of the source. -/
def updateClock (summer : Bool) (h m : Nat) : List Nat :=
  let f := (minuteSpans m).foldl setWord emptyFrame
  let f := (pastToSpans m).foldl setWord f
  match hourGlyph (hourSwitchValue summer h m) with
  | some ws => ws.foldl setWord f
  | none => f

/-- Single click in the SS_HOUR setup state: h++, then 13 wraps to 1. -/
def hourClick (h : Nat) : Nat :=
  let h := (h + 1) % 256
  if h = 13 then 1 else h

/-- Single click in the SS_MIN setup state: m becomes (m + 1) % 60. -/
def minuteClick (m : Nat) : Nat := (m + 1) % 60

/-- Frame shown on entry to the SS_DISP_HOUR setup state: the digit rendering
of currentHour applied to the hour being edited. -/
def setupDisplayHourFrame (summer : Bool) (h : Nat) : List Nat :=
  mapNumber (currentHour summer h)

/-- The twelve minute anchors of the classification: eleven five-minute
anchors and 60 standing for the top of the hour. -/
def anchors : List Nat := [5, 10, 15, 20, 25, 30, 35, 40, 45, 50, 55, 60]

/-- Membership of minute m in the window of anchor a: the top-of-hour window
is the set 58,59,0,1,2 as in the source case labels, every other window is
the closed interval from a-2 to a+2. -/
def inWindow (a m : Nat) : Bool :=
  if a = 60 then m ≤ 2 || (58 ≤ m && m ≤ 59) else a - 2 ≤ m && m ≤ a + 2

/-- Number of anchor windows that contain minute m. -/
def windowCount (m : Nat) : Nat := anchors.countP (fun a => inWindow a m)

/-- Minute words belonging to each anchor, matching the word chosen by the
switch in updateClock for a minute of that anchor's window. -/
def anchorSpans (a : Nat) : List clockWord :=
  if a = 60 then []
  else if a = 5 ∨ a = 55 then [M_05]
  else if a = 10 ∨ a = 50 then [M_10]
  else if a = 15 ∨ a = 45 then [M_15]
  else if a = 20 ∨ a = 40 then [M_20]
  else if a = 25 ∨ a = 35 then [M_05, M_20]
  else if a = 30 then [M_30]
  else []

/-- The anchor whose window contains minute m (the first match in the list;
unique when the windows partition the minutes). -/
def minuteAnchor (m : Nat) : Nat := (anchors.find? (fun a => inWindow a m)).getD 0

/-- Modelled from the spec: the hour value of claim C2's reference order,
with the summer offset added to the real hour first (13 wrapping to 1) and
the TO-half advance applied second (12 wrapping to 1). -/
def specHourValue (summer : Bool) (h m : Nat) : Nat :=
  let hs := h + (if summer then 1 else 0)
  let hs := if hs > 12 then 1 else hs
  if m > 32 then (if hs < 12 then hs + 1 else 1) else hs

/-- All word spans active for a render: minute words, PAST or TO, and the
hour words of the matched hour-name case. -/
def activeSpans (summer : Bool) (h m : Nat) : List clockWord :=
  minuteSpans m ++ pastToSpans m ++ (hourGlyph (hourSwitchValue summer h m)).getD []

/-- Frame combining a list of word spans by OR: row r holds the OR of the
data of all spans with row r, and 0 when no span targets row r. -/
def orFrame (ws : List clockWord) : List Nat :=
  (List.range 8).map (fun r => (ws.filter (fun w => w.row == r)).foldl (fun x w => x ||| w.data) 0)

end WordClock

namespace WordClock

set_option maxRecDepth 40000

/-- Claim C1: for every minute m in 0..59, exactly one of the twelve anchor
windows (eleven anchors 5,10,...,55 with window a-2..a+2, plus the top-of-hour
window 58,59,0,1,2) contains m, and the minute words chosen by the switch in
updateClock are those of that unique window's anchor. -/
theorem C1_minute_windows : ∀ m < 60, windowCount m = 1 ∧ minuteSpans m = anchorSpans (minuteAnchor m) := by decide

/-- Witness for C1 at m = 23. -/
theorem C1_minute_windows_witness : (23 : Nat) < 60 ∧ (windowCount 23 = 1 ∧ minuteSpans 23 = anchorSpans (minuteAnchor 23)) := ⟨by decide, C1_minute_windows 23 (by decide)⟩

/-- Claim C2: for every real hour in 1..12, minute in 0..59 and summer flag,
the hour value reaching the hour-name switch of updateClock (which advances
the real hour in the TO half first and applies the summer offset second)
equals the value obtained by applying the summer offset first (13 wrapping to
1) and then the TO-half advance (12 wrapping to 1). -/
theorem C2_summer_before_to_adjust : ∀ h < 13, 1 ≤ h → ∀ m < 60, ∀ s : Bool, hourSwitchValue s h m = specHourValue s h m := by decide

/-- Witness for C2 at h = 11, m = 40, summer flag set. -/
theorem C2_summer_before_to_adjust_witness : hourSwitchValue true 11 40 = specHourValue true 11 40 := C2_summer_before_to_adjust 11 (by decide) (by decide) 40 (by decide) true

/-- Claim C3 counterexample: starting from hour 1 in the setup hour-edit
state, 13 single-click increments give hour 2, not the original hour 1. -/
theorem C3_counterexample : Nat.iterate hourClick 13 1 = 2 ∧ Nat.iterate hourClick 13 1 ≠ 1 := by decide

/-- Claim C3 as amended: from the setup hour-edit state, 12 single-click
increments (not 13) return every starting hour in 1..12 to its original
value, and from the minute-edit state 60 increments return every starting
minute in 0..59 to its original value. -/
theorem C3_edit_click_cycles : ∀ h < 13, 1 ≤ h → ∀ m < 60, Nat.iterate hourClick 12 h = h ∧ Nat.iterate minuteClick 60 m = m := by decide

/-- Witness for C3 at h = 1, m = 0. -/
theorem C3_edit_click_cycles_witness : Nat.iterate hourClick 12 1 = 1 ∧ Nat.iterate minuteClick 60 0 = 0 := C3_edit_click_cycles 1 (by decide) (by decide) 0 (by decide)

/-- Claim C4 counterexample: on entry to the setup hour-display state with
the summer flag set and edit hour 12, the frame shown is the digit rendering
of 1, not of the edit value 12. -/
theorem C4_counterexample : setupDisplayHourFrame true 12 = mapNumber 1 ∧ setupDisplayHourFrame true 12 ≠ mapNumber 12 := by decide

/-- Claim C4 as amended: the setup hour-display state renders the
summer-adjusted edit hour, so the number shown equals the edit value exactly
when the summer flag is clear; with the flag set it is the edit hour plus
one, 12 wrapping to 1. -/
theorem C4_display_hour_frame : ∀ h < 13, 1 ≤ h → setupDisplayHourFrame false h = mapNumber h ∧ setupDisplayHourFrame true h = mapNumber (if h = 12 then 1 else h + 1) := by decide

/-- Witness for C4 at h = 12. -/
theorem C4_display_hour_frame_witness : setupDisplayHourFrame false 12 = mapNumber 12 ∧ setupDisplayHourFrame true 12 = mapNumber (if 12 = 12 then 1 else 12 + 1) := C4_display_hour_frame 12 (by decide) (by decide)

/-- Claim C5: in the top-of-hour window 58,59,0,1,2 updateClock emits no
minute word and no PAST or TO word; for minutes 3..32 it emits exactly the
PAST word (so no TO word); for minutes 33..57 exactly the TO word (so no
PAST word).  The minute and PAST or TO words do not depend on the hour. -/
theorem C5_past_to_selection : ∀ m < 60, ((m ≤ 2 ∨ 58 ≤ m) → minuteSpans m = [] ∧ pastToSpans m = []) ∧ ((3 ≤ m ∧ m ≤ 32) → pastToSpans m = [PAST]) ∧ ((33 ≤ m ∧ m ≤ 57) → pastToSpans m = [TO]) := by decide

/-- Witness for C5 at m = 20, in the PAST half. -/
theorem C5_past_to_selection_witness : pastToSpans 20 = [PAST] := (C5_past_to_selection 20 (by decide)).2.1 (by decide)

/-- Claim C6: with the summer flag clear, for every hour h in 1..12 the value
used for the hour-name lookup of updateClock is (h mod 12) + 1 when the
minute is 33 or more, and h itself when the minute is at most 32. -/
theorem C6_effective_hour : ∀ h < 13, 1 ≤ h → ∀ m < 60, hourSwitchValue false h m = (if 33 ≤ m then h % 12 + 1 else h) := by decide

/-- Witness for C6 at h = 12, m = 45. -/
theorem C6_effective_hour_witness : hourSwitchValue false 12 45 = (if 33 ≤ 45 then 12 % 12 + 1 else 12) := C6_effective_hour 12 (by decide) (by decide) 45 (by decide)

/-- Claim C7: for every real hour in 1..12 and either summer-flag value,
currentHour returns h + 1 with 13 wrapping to 1 when the flag is set and h
unchanged when clear, and the result is always in 1..12; in particular real
hour 12 with the flag set gives 1. -/
theorem C7_current_hour : ∀ h < 13, 1 ≤ h → ∀ s : Bool, currentHour s h = (if s then (if h = 12 then 1 else h + 1) else h) ∧ 1 ≤ currentHour s h ∧ currentHour s h ≤ 12 := by decide

/-- Witness for C7 at h = 12 with the flag set: the displayed hour is 1. -/
theorem C7_current_hour_witness : currentHour true 12 = (if true then (if 12 = 12 then 1 else 12 + 1) else 12) ∧ 1 ≤ currentHour true 12 ∧ currentHour true 12 ≤ 12 := C7_current_hour 12 (by decide) (by decide) true

/-- Claim C8: for every value in 0..99 and every row, the high nibble of the
row built by mapNumber is the font row of the tens digit and the low nibble
is the font row of the units digit. -/
theorem C8_map_number_nibbles : ∀ v < 100, ∀ i < 8, (mapNumber v).getD i 0 / 16 = fontRow (v / 10) i ∧ (mapNumber v).getD i 0 % 16 = fontRow (v % 10) i := by decide

/-- Witness for C8 at v = 47, row 3. -/
theorem C8_map_number_nibbles_witness : (mapNumber 47).getD 3 0 / 16 = fontRow (47 / 10) 3 ∧ (mapNumber 47).getD 3 0 % 16 = fontRow (47 % 10) 3 := C8_map_number_nibbles 47 (by decide) 3 (by decide)

/-- Claim C9: for every hour in 1..12, minute in 0..59 and summer flag, the
frame built by updateClock from a cleared display equals, row by row, the OR
of the data of all active word spans targeting that row, with untargeted
rows zero. -/
theorem C9_frame_is_or_of_spans : ∀ h < 13, 1 ≤ h → ∀ m < 60, ∀ s : Bool, updateClock s h m = orFrame (activeSpans s h m) := by decide

/-- Witness for C9 at h = 9, m = 23, summer flag clear. -/
theorem C9_frame_is_or_of_spans_witness : updateClock false 9 23 = orFrame (activeSpans false 9 23) := C9_frame_is_or_of_spans 9 (by decide) (by decide) 23 (by decide) false

/-- Claim C10: for every hour in 1..12, minute in 0..59 and summer flag, the
value reaching the hour-name switch of updateClock is in 1..12 and matches a
case of the switch, so the word pointer and element count are always
initialised before the span-writing loop. -/
theorem C10_hour_switch_safe : ∀ h < 13, 1 ≤ h → ∀ m < 60, ∀ s : Bool, 1 ≤ hourSwitchValue s h m ∧ hourSwitchValue s h m ≤ 12 ∧ (hourGlyph (hourSwitchValue s h m)).isSome = true := by decide

/-- Witness for C10 at h = 12, m = 59, summer flag set. -/
theorem C10_hour_switch_safe_witness : 1 ≤ hourSwitchValue true 12 59 ∧ hourSwitchValue true 12 59 ≤ 12 ∧ (hourGlyph (hourSwitchValue true 12 59)).isSome = true := C10_hour_switch_safe 12 (by decide) (by decide) 59 (by decide) true

end WordClock
